import Mathlib

/-!
# Verification of the obj-reader Wavefront `.obj` parser

Shallow embedding of `src/obj-reader.c` / `src/obj-reader.h`.

Modelling conventions:
* A C string is a `List Char` holding the characters before the `'\x00'`
  terminator; a possibly-NULL `char *` is an `Option (List Char)` with
  `none` for the NULL pointer.
* A file is the `List Line` of successive `fgets` results (each line keeps
  its trailing `'\n'` except possibly the last line of the file).
* `float` values are modelled as `ℚ`; every numeric literal appearing in a
  claim is exactly representable, so no rounding behaviour is relied on.
* `malloc` results are driven by an oracle `ok : Nat → Bool` giving the
  outcome of the i-th `malloc` call of `alloc_mesh_data`; a buffer is
  `Option (List (Option α))`: `none` for a failed/never-performed
  allocation, `some arr` for an allocation with `arr.length` cells,
  initially all `none` (uninitialized memory).
* A store through an unallocated pointer or out of bounds (undefined
  behaviour in C) sets the `ub` flag of the decode state.
* The two loops of the C decode pass that need not terminate
  (`determine_face_type`, the token loop of `parse_face`) are given a fuel
  parameter; a result of `none` for every fuel is how the embedding
  expresses non-termination.
-/

namespace ObjReader

/-- One line of the input file, as stored in `lineBuff` by `fgets`
(characters before the terminating `'\x00'`). -/
abbrev Line := List Char

/-- The `Obj_LineType` enum of `obj-reader.c` (the constructor `lin`
stands for `OBJ_LINE`; `invalid` for `OBJ_INVALID_LINE`). -/
inductive Obj_LineType where
  | comment | vecpos | vectext | vecnorm | vecparam | face | lin
  | mtlspec | mtluse | object | group | sshading | invalid
  deriving DecidableEq

/-- The `Obj_FaceType` enum of `obj-reader.c`. -/
inductive Obj_FaceType where
  | posOnly | posAndTex | posAndNorm | posTexAndNorm | invalid
  deriving DecidableEq

/-- The `LINE_SPEC` table, in the order the C array indices it
(`OBJ_COMMENT = 0` … `OBJ_SSHADING = 11`). -/
def LINE_SPEC : List (Obj_LineType × List Char) :=
  [(.comment, "# ".toList), (.vecpos, "v ".toList), (.vectext, "vt ".toList),
   (.vecnorm, "vn ".toList), (.vecparam, "vp ".toList), (.face, "f ".toList),
   (.lin, "l ".toList), (.mtlspec, "mtllib ".toList), (.mtluse, "usemtl ".toList),
   (.object, "o ".toList), (.group, "g ".toList), (.sshading, "s ".toList)]

/-- C `strncmp(s, t, n)`: compare at most `n` characters, stopping at the
first difference or at a terminator common to both strings. Reading past
the end of a list yields the `'\x00'` terminator. -/
def cstrncmp : List Char → List Char → Nat → Int
  | _, _, 0 => 0
  | s, t, n + 1 =>
    let cs := s.headD '\x00'
    let ct := t.headD '\x00'
    if cs ≠ ct then (cs.toNat : Int) - (ct.toNat : Int)
    else if cs = '\x00' then 0
    else cstrncmp s.tail t.tail n

/-- `strncmp(lineBuff, LINE_SPEC[i], strlen(LINE_SPEC[i])) == 0`. -/
def lineMatches (l p : List Char) : Bool := cstrncmp l p p.length == 0

/-- `get_line_type`: first entry of `LINE_SPEC` whose text is a prefix of
the line, else `OBJ_INVALID_LINE`. -/
def get_line_type (l : Line) : Obj_LineType :=
  match LINE_SPEC.find? (fun e => lineMatches l e.2) with
  | some e => e.1
  | none => .invalid

/-- The `Obj_MeshSizes` struct of `obj-reader.h`. -/
structure Obj_MeshSizes where
  nPos : Nat
  nNorms : Nat
  nTex : Nat
  nFaces : Nat
  flatFacesSize : Nat
  deriving DecidableEq

/-- Count of `' '` characters of the whole line: the
`for (i = 0; i < strlen(lineBuff); ++i) sizes.flatFacesSize += lineBuff[i] == ' ';`
loop of `get_sizes`. -/
def countSpaces (l : Line) : Nat := l.countP (fun c => c == ' ')

/-- The switch body of `get_sizes` for one line. -/
def sizeStep (s : Obj_MeshSizes) (l : Line) : Obj_MeshSizes :=
  match get_line_type l with
  | .vecpos => ⟨s.nPos + 1, s.nNorms, s.nTex, s.nFaces, s.flatFacesSize⟩
  | .vectext => ⟨s.nPos, s.nNorms, s.nTex + 1, s.nFaces, s.flatFacesSize⟩
  | .vecnorm => ⟨s.nPos, s.nNorms + 1, s.nTex, s.nFaces, s.flatFacesSize⟩
  | .face => ⟨s.nPos, s.nNorms, s.nTex, s.nFaces + 1, s.flatFacesSize + countSpaces l⟩
  | _ => s

/-- `get_sizes`: the sizing pass over the whole file, starting from the
zero-initialised `Obj_MeshSizes`. -/
def get_sizes (file : List Line) : Obj_MeshSizes := file.foldl sizeStep ⟨0, 0, 0, 0, 0⟩

/-- Contribution of a single line to `get_sizes`. -/
def sizeDelta (l : Line) : Obj_MeshSizes := sizeStep ⟨0, 0, 0, 0, 0⟩ l

/-- C `isspace` on the characters that can occur in a text line. -/
def isSpaceC (c : Char) : Bool :=
  c == ' ' || c == '\t' || c == '\n' || c == '\x0b' || c == '\x0c' || c == '\r'

/-- ASCII decimal digit. -/
def isDigitC (c : Char) : Bool := '0' ≤ c && c ≤ '9'

/-- Value of a digit string. -/
def digitsVal (ds : List Char) : Nat := ds.foldl (fun a c => 10 * a + (c.toNat - 48)) 0

/-- One `%f` conversion: strtod-style decimal parse (optional sign, digits
with an optional fraction, optional decimal exponent). Hexadecimal and
inf/nan forms are not modelled; no input considered here uses them.
Returns the value and the unconsumed rest, or `none` on matching failure
(nothing consumed). -/
def parseFloat (s : List Char) : Option (ℚ × List Char) :=
  let sgn : Int × List Char :=
    match s with
    | '-' :: r => (-1, r)
    | '+' :: r => (1, r)
    | _ => (1, s)
  let s1 := sgn.2
  let intDs := s1.takeWhile isDigitC
  let s2 := s1.drop intDs.length
  let fracPair : List Char × List Char :=
    match s2 with
    | '.' :: r => (r.takeWhile isDigitC, r.drop (r.takeWhile isDigitC).length)
    | _ => ([], s2)
  let fracDs := fracPair.1
  let s3 := if intDs = [] ∧ fracDs = [] then s2 else fracPair.2
  if intDs = [] ∧ fracDs = [] then none
  else
    let mantNum : Int := sgn.1 * ((digitsVal intDs : Int) * ((10 : Int) ^ fracDs.length) + (digitsVal fracDs : Int))
    let mantDen : Nat := 10 ^ fracDs.length
    let expPart : Option (Int × List Char) :=
      match s3 with
      | c :: r =>
        if c == 'e' || c == 'E' then
          let esgn : Int × List Char :=
            match r with
            | '-' :: r2 => (-1, r2)
            | '+' :: r2 => (1, r2)
            | _ => (1, r)
          let eDs := esgn.2.takeWhile isDigitC
          if eDs = [] then none
          else some (esgn.1 * (digitsVal eDs : Int), esgn.2.drop eDs.length)
        else none
      | [] => none
    match expPart with
    | some (e, rest) =>
      some (mkRat (mantNum * (10 : Int) ^ e.toNat) (mantDen * 10 ^ (-e).toNat), rest)
    | none => some (mkRat mantNum mantDen, s3)

/-- One `%d` conversion: optional sign then decimal digits. -/
def parseIntC (s : List Char) : Option (Int × List Char) :=
  let sgn : Int × List Char :=
    match s with
    | '-' :: r => (-1, r)
    | '+' :: r => (1, r)
    | _ => (1, s)
  let ds := sgn.2.takeWhile isDigitC
  if ds = [] then none else some (sgn.1 * (digitsVal ds : Nat), sgn.2.drop ds.length)

/-- Literal part of an `sscanf` format: a whitespace character of the
format skips any run of input whitespace, any other character must match
the next input character exactly. `none` on a mismatch. -/
def scanfLit : List Char → List Char → Option (List Char)
  | s, [] => some s
  | s, c :: fs =>
    if isSpaceC c then scanfLit (s.dropWhile isSpaceC) fs
    else
      match s with
      | a :: s2 => if a = c then scanfLit s2 fs else none
      | [] => none

/-- The `%f` conversions of a format `lit %f %f … %f` (`k` of them), run on
the input left after the literal: each conversion skips whitespace; the
C return value is `-1` (`EOF`) when the input ends before the first
conversion, otherwise the number of conversions done. -/
def scanfFloatsGo : List Char → Nat → List ℚ → Int × List ℚ
  | _, 0, acc => ((acc.length : Int), acc.reverse)
  | s, k + 1, acc =>
    let s1 := s.dropWhile isSpaceC
    if s1 = [] then (if acc = [] then (-1 : Int) else (acc.length : Int), acc.reverse)
    else
      match parseFloat s1 with
      | none => ((acc.length : Int), acc.reverse)
      | some (v, rest) => scanfFloatsGo rest k (v :: acc)

/-- `sscanf(lineBuff, "<lit> %f … %f", …)` with `k` float conversions:
returns the C return value and the list of values that were stored. -/
def sscanf_floats (lit : List Char) (k : Nat) (l : Line) : Int × List ℚ :=
  match scanfLit l lit with
  | none => (0, [])
  | some s => scanfFloatsGo s k []

/-- The `ObjRdr_VertIdx` struct (field order as in `obj-reader.h`). -/
structure ObjRdr_VertIdx where
  posIdx : Int
  normIdx : Int
  texIdx : Int
  deriving DecidableEq

/-- A C buffer: `none` for a NULL / never-assigned pointer, `some arr`
for an allocation of `arr.length` cells, unwritten cells being `none`. -/
abbrev Buf (α : Type) := Option (List (Option α))

/-- Store `v` at index `i`; the `Bool` records whether the store was
undefined behaviour (NULL base pointer or out-of-bounds index). -/
def bufWrite {α : Type} (b : Buf α) (i : Nat) (v : α) : Buf α × Bool :=
  match b with
  | none => (none, true)
  | some arr => if i < arr.length then (some (arr.set i (some v)), false) else (some arr, true)

/-- Store through a pointer only when `sscanf` actually converted a value
for it (`v = none` models a conversion that never happened: no store). -/
def bufWriteOpt {α : Type} (b : Buf α) (i : Nat) (v : Option α) : Buf α × Bool :=
  match v with
  | none => (b, false)
  | some x => bufWrite b i x

/-- The `Obj_MeshData` struct of `obj-reader.h`. -/
structure Obj_MeshData where
  posX : Buf ℚ
  posY : Buf ℚ
  posZ : Buf ℚ
  posW : Buf ℚ
  normX : Buf ℚ
  normY : Buf ℚ
  normZ : Buf ℚ
  texU : Buf ℚ
  texV : Buf ℚ
  faces : Buf ObjRdr_VertIdx
  faceSizes : Buf Nat
  deriving DecidableEq

/-- The stack-local `Obj_MeshData` before any field is assigned
(indeterminate pointers, modelled as unallocated). -/
def mdata0 : Obj_MeshData := ⟨none, none, none, none, none, none, none, none, none, none, none⟩

/-- One `malloc` call: the oracle `ok` gives the outcome of the `i`-th
call of `alloc_mesh_data`; success yields `size` uninitialized cells. -/
def malloc {α : Type} (ok : Nat → Bool) (i : Nat) (size : Nat) : Buf α :=
  if ok i then some (List.replicate size none) else none

/-- `alloc_mesh_data`: allocates group by group; on the first group whose
check fails it returns `false` at once, leaving the later fields
unassigned (the C function returns early). The success path returns
`true` (the C `return data;` of a non-null pointer). -/
def alloc_mesh_data (ok : Nat → Bool) (sizes : Obj_MeshSizes) : Obj_MeshData × Bool :=
  let px : Buf ℚ := malloc ok 0 sizes.nPos
  let py : Buf ℚ := malloc ok 1 sizes.nPos
  let pz : Buf ℚ := malloc ok 2 sizes.nPos
  let pw : Buf ℚ := malloc ok 3 sizes.nPos
  if px = none ∨ py = none ∨ pz = none ∨ pw = none then
    (⟨px, py, pz, pw, none, none, none, none, none, none, none⟩, false)
  else
    let nx : Buf ℚ := malloc ok 4 sizes.nNorms
    let ny : Buf ℚ := malloc ok 5 sizes.nNorms
    let nz : Buf ℚ := malloc ok 6 sizes.nNorms
    if nx = none ∨ ny = none ∨ nz = none then
      (⟨px, py, pz, pw, nx, ny, nz, none, none, none, none⟩, false)
    else
      let tu : Buf ℚ := malloc ok 7 sizes.nTex
      let tv : Buf ℚ := malloc ok 8 sizes.nTex
      if tu = none ∨ tv = none then
        (⟨px, py, pz, pw, nx, ny, nz, tu, tv, none, none⟩, false)
      else
        let fc : Buf ObjRdr_VertIdx := malloc ok 9 sizes.flatFacesSize
        let fs : Buf Nat := malloc ok 10 sizes.nFaces
        if fc = none ∨ fs = none then
          (⟨px, py, pz, pw, nx, ny, nz, tu, tv, fc, fs⟩, false)
        else
          (⟨px, py, pz, pw, nx, ny, nz, tu, tv, fc, fs⟩, true)

/-- `lineBuff[i]`: past the stored line the `fgets` terminator `'\x00'`
is read (no input considered here reaches the stale bytes beyond it). -/
def charAt (l : Line) (i : Nat) : Char := l.getD i '\x00'

/-- The scanning loop of `determine_face_type`, with fuel. Each iteration
mirrors the C body exactly: on `lineBuff[i] == ' '` the loop exits; a
character `c` with `c - '0' < 10` (true of every character up to `'9'`,
digits and `'/'` included) clears `justParsedSlash` and `continue`s
without advancing `i`; otherwise a `'/'` would classify the token, and
any other character advances `i`. -/
def dftLoop (l : Line) : Nat → Nat → Bool → Bool → Option Obj_FaceType
  | 0, _, _, _ => none
  | fuel + 1, i, justParsedSlash, parsedSlash =>
    if charAt l i = ' ' then some (if parsedSlash then .posAndTex else .posOnly)
    else
      let c := charAt l i
      if (c.toNat : Int) - 48 < 10 then dftLoop l fuel i false parsedSlash
      else if c = '/' then
        if justParsedSlash then some .posAndNorm
        else if parsedSlash then some .posTexAndNorm
        else dftLoop l fuel (i + 1) true true
      else dftLoop l fuel (i + 1) justParsedSlash parsedSlash

/-- `determine_face_type`: starts at index 2 (`// ignore 'f' and first
space`), both flags false. `none` = the loop has not exited within
`fuel` iterations. -/
def determine_face_type (l : Line) (fuel : Nat) : Option Obj_FaceType :=
  dftLoop l fuel 2 false false

/-- The single `strtok(lineBuff + 2, " ")` call of `parse_face`: first
maximal run of non-`' '` characters, or `none` when only delimiters
remain (`parse_face` never calls `strtok` again). -/
def strtokFirst (s : List Char) : Option (List Char) :=
  let s1 := s.dropWhile (fun c => c == ' ')
  if s1.isEmpty then none else some (s1.takeWhile (fun c => c != ' '))

/-- `sscanf(intBuff, FACE_INDEX_FORMAT[faceType], …)` on one face token:
the conversions that fail leave the previous values of the C locals
`posIdx` / `texIdx` / `normIdx` (the sscanf return value is ignored by
`parse_face`). Result order: `(posIdx, texIdx, normIdx)`. -/
def scanfFaceTok : Obj_FaceType → List Char → Int → Int → Int → Int × Int × Int
  | .posOnly, s, p, t, n =>
    match parseIntC (s.dropWhile isSpaceC) with
    | none => (p, t, n)
    | some (v, _) => (v, t, n)
  | .posAndTex, s, p, t, n =>
    match parseIntC (s.dropWhile isSpaceC) with
    | none => (p, t, n)
    | some (v, r) =>
      match r with
      | '/' :: r1 =>
        match parseIntC (r1.dropWhile isSpaceC) with
        | none => (v, t, n)
        | some (v2, _) => (v, v2, n)
      | _ => (v, t, n)
  | .posAndNorm, s, p, t, n =>
    match parseIntC (s.dropWhile isSpaceC) with
    | none => (p, t, n)
    | some (v, r) =>
      match r with
      | '/' :: '/' :: r1 =>
        match parseIntC (r1.dropWhile isSpaceC) with
        | none => (v, t, n)
        | some (v2, _) => (v, t, v2)
      | _ => (v, t, n)
  | .posTexAndNorm, s, p, t, n =>
    match parseIntC (s.dropWhile isSpaceC) with
    | none => (p, t, n)
    | some (v, r) =>
      match r with
      | '/' :: r1 =>
        match parseIntC (r1.dropWhile isSpaceC) with
        | none => (v, t, n)
        | some (v2, r2) =>
          match r2 with
          | '/' :: r3 =>
            match parseIntC (r3.dropWhile isSpaceC) with
            | none => (v, v2, n)
            | some (v3, _) => (v, v2, v3)
          | _ => (v, v2, n)
      | _ => (v, t, n)
  | .invalid, _, p, t, n => (p, t, n)

/-- Replace the `faces` buffer of a mesh. -/
def setFaces (d : Obj_MeshData) (b : Buf ObjRdr_VertIdx) : Obj_MeshData :=
  ⟨d.posX, d.posY, d.posZ, d.posW, d.normX, d.normY, d.normZ, d.texU, d.texV, b, d.faceSizes⟩

/-- Replace the `faceSizes` buffer of a mesh. -/
def setFaceSizes (d : Obj_MeshData) (b : Buf Nat) : Obj_MeshData :=
  ⟨d.posX, d.posY, d.posZ, d.posW, d.normX, d.normY, d.normZ, d.texU, d.texV, d.faces, b⟩

/-- The `while (intBuff)` loop of `parse_face`, with fuel. `tok` is the
value of `intBuff`: the C loop never updates it, so the recursion passes
it through unchanged; the loop can therefore only finish when `tok` is
`none` on entry (then `numVertices` is returned), or through the
`OBJ_INVALID_FACE` switch arm (`return 0`). Each iteration scans the
token, stores a `ObjRdr_VertIdx` at `faces[faceVtxIdx + numVertices]`
and increments `numVertices`. -/
def pfLoop (ft : Obj_FaceType) (tok : Option (List Char)) :
    Nat → Obj_MeshData → Bool → Nat → Nat → Int → Int → Int →
    Option (Obj_MeshData × Bool × Nat)
  | fuel, d, u, faceVtxIdx, numVertices, p, t, n =>
    match tok with
    | none => some (d, u, numVertices)
    | some tk =>
      match fuel with
      | 0 => none
      | fuel + 1 =>
        match ft with
        | .invalid => some (d, u, 0)
        | _ =>
          let r := scanfFaceTok ft tk p t n
          let w := bufWrite d.faces (faceVtxIdx + numVertices) ⟨r.1, r.2.2, r.2.1⟩
          pfLoop ft tok fuel (setFaces d w.1) (u || w.2) faceVtxIdx (numVertices + 1) r.1 r.2.1 r.2.2

/-- `parse_face`: classify the face-vertex format from the first token,
then run the token loop with `posIdx = texIdx = normIdx = -1`. `none` =
one of the two loops has not finished within `fuel` iterations. -/
def parse_face (l : Line) (d : Obj_MeshData) (u : Bool) (faceVtxIdx : Nat) (fuel : Nat) :
    Option (Obj_MeshData × Bool × Nat) :=
  match determine_face_type l fuel with
  | none => none
  | some ft => pfLoop ft (strtokFirst (l.drop 2)) fuel d u faceVtxIdx 0 (-1) (-1) (-1)

/-- The cursor-and-buffer state of `try_get_data`. -/
structure DecodeSt where
  data : Obj_MeshData
  posIdx : Nat
  normIdx : Nat
  textIdx : Nat
  faceVtxIdx : Nat
  faceIdx : Nat
  ub : Bool
  deriving DecidableEq

/-- Result of processing one line of the decode pass: continue, or the
early `return data;` of a malformed attribute line. -/
inductive StepRes where
  | cont (st : DecodeSt)
  | abort (st : DecodeSt)

/-- The `OBJ_VECPOS` arm of `try_get_data`: try `"v %f %f %f"`; a nonzero
return (a partial count, or `EOF = -1`) takes the 3-float branch which
then stores `posW[posIdx] = 1.0f`; only a zero return falls through to
`"v %f %f %f %f"`, and only a zero return of that aborts. -/
def decodeVecpos (st : DecodeSt) (l : Line) : StepRes :=
  let r3 := sscanf_floats "v ".toList 3 l
  if r3.1 ≠ 0 then
    let w1 := bufWriteOpt st.data.posX st.posIdx (r3.2.get? 0)
    let w2 := bufWriteOpt st.data.posY st.posIdx (r3.2.get? 1)
    let w3 := bufWriteOpt st.data.posZ st.posIdx (r3.2.get? 2)
    let w4 := bufWrite st.data.posW st.posIdx 1
    .cont ⟨⟨w1.1, w2.1, w3.1, w4.1, st.data.normX, st.data.normY, st.data.normZ,
            st.data.texU, st.data.texV, st.data.faces, st.data.faceSizes⟩,
           st.posIdx + 1, st.normIdx, st.textIdx, st.faceVtxIdx, st.faceIdx,
           st.ub || w1.2 || w2.2 || w3.2 || w4.2⟩
  else
    let r4 := sscanf_floats "v ".toList 4 l
    if r4.1 ≠ 0 then
      let w1 := bufWriteOpt st.data.posX st.posIdx (r4.2.get? 0)
      let w2 := bufWriteOpt st.data.posY st.posIdx (r4.2.get? 1)
      let w3 := bufWriteOpt st.data.posZ st.posIdx (r4.2.get? 2)
      let w4 := bufWriteOpt st.data.posW st.posIdx (r4.2.get? 3)
      .cont ⟨⟨w1.1, w2.1, w3.1, w4.1, st.data.normX, st.data.normY, st.data.normZ,
              st.data.texU, st.data.texV, st.data.faces, st.data.faceSizes⟩,
             st.posIdx + 1, st.normIdx, st.textIdx, st.faceVtxIdx, st.faceIdx,
             st.ub || w1.2 || w2.2 || w3.2 || w4.2⟩
    else .abort st

/-- The `OBJ_VECNORM` arm of `try_get_data`: `"vn %f %f %f"`, abort only
on a zero return. -/
def decodeVecnorm (st : DecodeSt) (l : Line) : StepRes :=
  let r := sscanf_floats "vn ".toList 3 l
  if r.1 ≠ 0 then
    let w1 := bufWriteOpt st.data.normX st.normIdx (r.2.get? 0)
    let w2 := bufWriteOpt st.data.normY st.normIdx (r.2.get? 1)
    let w3 := bufWriteOpt st.data.normZ st.normIdx (r.2.get? 2)
    .cont ⟨⟨st.data.posX, st.data.posY, st.data.posZ, st.data.posW, w1.1, w2.1, w3.1,
            st.data.texU, st.data.texV, st.data.faces, st.data.faceSizes⟩,
           st.posIdx, st.normIdx + 1, st.textIdx, st.faceVtxIdx, st.faceIdx,
           st.ub || w1.2 || w2.2 || w3.2⟩
  else .abort st

/-- The `OBJ_VECTEXT` arm of `try_get_data`: `"vt %f %f"`, abort only on
a zero return. -/
def decodeVectext (st : DecodeSt) (l : Line) : StepRes :=
  let r := sscanf_floats "vt ".toList 2 l
  if r.1 ≠ 0 then
    let w1 := bufWriteOpt st.data.texU st.textIdx (r.2.get? 0)
    let w2 := bufWriteOpt st.data.texV st.textIdx (r.2.get? 1)
    .cont ⟨⟨st.data.posX, st.data.posY, st.data.posZ, st.data.posW, st.data.normX,
            st.data.normY, st.data.normZ, w1.1, w2.1, st.data.faces, st.data.faceSizes⟩,
           st.posIdx, st.normIdx, st.textIdx + 1, st.faceVtxIdx, st.faceIdx,
           st.ub || w1.2 || w2.2⟩
  else .abort st

/-- One iteration of the `while (fgets(…))` loop of `try_get_data`: the
switch on `get_line_type()`. The `OBJ_FACE` arm stores the returned
vertex count at `faceSizes[faceIdx++]` and advances `faceVtxIdx` (the
fewer-than-3-vertices case only prints a diagnostic); every other
category is a no-op. `none` = `parse_face` has not finished. -/
def decodeLine (fuel : Nat) (st : DecodeSt) (l : Line) : Option StepRes :=
  match get_line_type l with
  | .vecpos => some (decodeVecpos st l)
  | .vecnorm => some (decodeVecnorm st l)
  | .vectext => some (decodeVectext st l)
  | .face =>
    match parse_face l st.data st.ub st.faceVtxIdx fuel with
    | none => none
    | some (d2, u2, numVertices) =>
      let w := bufWrite d2.faceSizes st.faceIdx numVertices
      some (.cont ⟨setFaceSizes d2 w.1, st.posIdx, st.normIdx, st.textIdx,
                   st.faceVtxIdx + numVertices, st.faceIdx + 1, u2 || w.2⟩)
  | _ => some (.cont st)

/-- The line loop of `try_get_data`: reaching the end of the file sets
`*successfulRead = true`; an abort returns the current (partial) state
with `false`. -/
def decodeLines (fuel : Nat) (st : DecodeSt) : List Line → Option (DecodeSt × Bool)
  | [] => some (st, true)
  | l :: ls =>
    match decodeLine fuel st l with
    | none => none
    | some (.abort st2) => some (st2, false)
    | some (.cont st2) => decodeLines fuel st2 ls

/-- The decode state at entry of the line loop (all cursors zero,
buffers as `alloc_mesh_data` left them). -/
def initSt (ok : Nat → Bool) (sizes : Obj_MeshSizes) : DecodeSt :=
  ⟨(alloc_mesh_data ok sizes).1, 0, 0, 0, 0, 0, false⟩

/-- `try_get_data`: calls `alloc_mesh_data` and DISCARDS its boolean
result (as the C caller does, line 357), then runs the decode loop. -/
def try_get_data (ok : Nat → Bool) (fuel : Nat) (file : List Line) (sizes : Obj_MeshSizes) :
    Option (DecodeSt × Bool) :=
  decodeLines fuel (initSt ok sizes) file

/-- `MAX_LEN` of `strlen_s` (`(uint32_t)0xffffffff`). -/
def MAX_LEN : Nat := 4294967295

/-- The loop of `strlen_s` with the remaining iteration count explicit:
the test is `if (!s)` on the POINTER, not on the character under it; a
non-null pointer stays non-null under `++s`, so the nullness is a loop
invariant and the loop either returns `i = 0` at once (NULL argument) or
runs all `MAX_LEN` iterations. -/
def strlen_s_go (isNull : Bool) : Nat → Nat → Nat
  | _, 0 => MAX_LEN
  | i, r + 1 => if isNull then i else strlen_s_go isNull (i + 1) r

/-- `strlen_s`: 0 for the NULL pointer, `MAX_LEN` for every other string. -/
def strlen_s (s : Option (List Char)) : Nat := strlen_s_go s.isNone 0 MAX_LEN

/-- `str_endswith`: with `strlen_s` returning `MAX_LEN` for every
non-null string, the length guard always passes and the `strncmp` starts
at offset 0, so the test degenerates to full string equality. The `&&`
short-circuits exactly as in C. -/
def str_endswith (s suff : Option (List Char)) : Bool :=
  let sLen := strlen_s s
  let suffLen := strlen_s suff
  decide (sLen ≥ suffLen) && (cstrncmp ((s.getD []).drop (sLen - suffLen)) (suff.getD []) suffLen == 0)

/-- `try_open_obj`: reject unless one of the two suffix checks passes,
then report whether `fopen` succeeded (`openOk`). -/
def try_open_obj (path : Option (List Char)) (openOk : Bool) : Bool :=
  if str_endswith path (some ".obj".toList) || str_endswith path (some ".OBJ".toList) then openOk
  else false

/-- The `Obj_Mesh` struct. -/
structure Obj_Mesh where
  sizes : Obj_MeshSizes
  data : Obj_MeshData
  deriving DecidableEq

/-- `Obj_Mesh mesh = {};` — the zero-initialised mesh. -/
def mesh0 : Obj_Mesh := ⟨⟨0, 0, 0, 0, 0⟩, mdata0⟩

/-- `obj_read`: extension/open pre-check (failure returns `{false, mesh}`
with the empty mesh, before `get_sizes` or any allocation), then sizing
pass, rewind, decode pass. `file` is the line sequence both passes read;
`openOk` whether `fopen` succeeds; `ok` the malloc oracle; `none` = the
decode pass has not finished within `fuel`. -/
def obj_read (ok : Nat → Bool) (fuel : Nat) (path : Option (List Char)) (openOk : Bool)
    (file : List Line) : Option (Bool × Obj_Mesh) :=
  if try_open_obj path openOk then
    let sizes := get_sizes file
    match try_get_data ok fuel file sizes with
    | none => none
    | some (st, success) => some (success, ⟨sizes, st.data⟩)
  else some (false, mesh0)

/-- The buffer pointers of a mesh as raw addresses (`0` = NULL), for the
release-operation claims: `obj_free` only reads these pointers. -/
structure Obj_MeshPtrs where
  posX : Nat
  posY : Nat
  posZ : Nat
  posW : Nat
  normX : Nat
  normY : Nat
  normZ : Nat
  texU : Nat
  texV : Nat
  faces : Nat
  faceSizes : Nat
  deriving DecidableEq

/-- The `FREE(A)` macro: `free(A)` is called when `A` is non-null; `A`
itself is NOT modified (no NULL-ing). The result lists the pointers
passed to `free`. -/
def FREE (a : Nat) : List Nat := if a ≠ 0 then [a] else []

/-- `obj_free`: frees the eleven buffers in order; the mesh struct is
returned unchanged because the function never writes to it. -/
def obj_free (m : Obj_MeshPtrs) : Obj_MeshPtrs × List Nat :=
  (m, FREE m.posX ++ FREE m.posY ++ FREE m.posZ ++ FREE m.posW ++ FREE m.normX ++
      FREE m.normY ++ FREE m.normZ ++ FREE m.texU ++ FREE m.texV ++ FREE m.faces ++
      FREE m.faceSizes)

/-- Modelled from the spec: the number of whitespace-delimited token
groups after the two-character `f ` prefix of a face line (the robust
tokenization the sizing pass is required to perform, spec section 4.2). -/
def specFaceTokenCount (l : Line) : Nat :=
  (((l.drop 2).splitOnP isSpaceC).filter (fun t => !t.isEmpty)).length

/-- The C1 counterexample input: a file whose only line is `f  ` (an `f`,
two spaces, end of file with no newline). -/
def c1BadFile : List Line := ["f  ".toList]

/-- A one-line position file, for the C1 witness. -/
def c1File : List Line := ["v 1 2 3\n".toList]

/-- The decode state `try_get_data` reaches on `c1File` with every
allocation succeeding. -/
def c1WitSt : DecodeSt :=
  ⟨⟨some [some 1], some [some 2], some [some 3], some [some 1], some [], some [], some [],
    some [], some [], some [], some []⟩, 1, 0, 0, 0, 0, false⟩

/-- A position line with exactly 3 numeric fields. -/
def c2File3 : List Line := ["v 1.0 2.0 3.0\n".toList]

/-- A position line with 4 numeric fields. -/
def c2File4 : List Line := ["v 1.0 2.0 3.0 0.5\n".toList]

/-- The malformed normal line of the C3 claim. -/
def c3File : List Line := ["vn 1.0 abc\n".toList]

/-- A normal line whose first field already fails to convert. -/
def c3AbortFile : List Line := ["vn abc\n".toList]

/-- A one-line position file, for the C4 allocation-failure run. -/
def c4File : List Line := ["v 1.0 2.0 3.0\n".toList]

/-- A malloc oracle failing exactly the first call (the `posX` buffer). -/
def c4Oracle : Nat → Bool := fun k => k != 0

/-- A face line with a double space between its tokens. -/
def c7Line : Line := "f 1  2 3\n".toList

/-- A mesh holding a single allocated buffer, at address 1. -/
def c8Mesh : Obj_MeshPtrs := ⟨1, 0, 0, 0, 0, 0, 0, 0, 0, 0, 0⟩

theorem char_toNat_inj (a b : Char) (h : a.toNat = b.toNat) : a = b := by
  have := congrArg Char.ofNat h
  simpa [Char.ofNat_toNat] using this

theorem cstrncmp_succ (s t : List Char) (n : Nat) :
    cstrncmp s t (n + 1) =
      (if s.headD '\x00' ≠ t.headD '\x00' then
        ((s.headD '\x00').toNat : Int) - ((t.headD '\x00').toNat : Int)
       else if s.headD '\x00' = '\x00' then 0
       else cstrncmp s.tail t.tail n) := rfl

theorem charAt_nil (k : Nat) : charAt [] k = '\x00' := rfl

theorem charAt_cons_zero (a : Char) (l : List Char) : charAt (a :: l) 0 = a := rfl

theorem charAt_cons_succ (a : Char) (l : List Char) (k : Nat) :
    charAt (a :: l) (k + 1) = charAt l k := rfl

/-- Characterization of a successful `strncmp`-against-pattern test, for
a pattern free of the terminator character: it holds exactly when the
pattern is a character-for-character prefix of the line. -/
theorem cstrncmp_zero_iff : ∀ (p l : List Char), '\x00' ∉ p →
    (cstrncmp l p p.length = 0 ↔ ∀ k, k < p.length → charAt l k = charAt p k) := by
  intro p
  induction p with
  | nil => intro l _; simp [cstrncmp]
  | cons c p ih =>
    intro l hn
    have hc : c ≠ '\x00' := fun h => hn (h ▸ List.mem_cons_self c p)
    have hn' : '\x00' ∉ p := fun h => hn (List.mem_cons_of_mem c h)
    rw [List.length_cons, cstrncmp_succ]
    cases l with
    | nil =>
      simp only [List.headD_nil, List.headD_cons, List.tail_nil, List.tail_cons]
      rw [if_pos (fun h => hc h.symm)]
      constructor
      · intro h
        exfalso
        have h0 : ('\x00'.toNat : Int) = 0 := rfl
        exact hc (char_toNat_inj c '\x00' (by omega))
      · intro h
        exfalso
        have h0 := h 0 (by omega)
        rw [charAt_nil, charAt_cons_zero] at h0
        exact hc h0.symm
    | cons a l =>
      simp only [List.headD_cons, List.tail_cons]
      by_cases he : a = c
      · subst he
        rw [if_neg (fun h => h rfl), if_neg hc, ih l hn']
        constructor
        · intro h k hk
          cases k with
          | zero => rfl
          | succ k => rw [charAt_cons_succ, charAt_cons_succ]; exact h k (by omega)
        · intro h k hk
          have := h (k + 1) (by omega)
          rw [charAt_cons_succ, charAt_cons_succ] at this
          exact this
      · rw [if_pos he]
        constructor
        · intro h
          exact absurd (char_toNat_inj a c (by omega)) he
        · intro h
          have h0 := h 0 (by omega)
          rw [charAt_cons_zero, charAt_cons_zero] at h0
          exact absurd h0 he

theorem spec_no_null : ∀ e ∈ LINE_SPEC, '\x00' ∉ e.2 := by decide

theorem spec_pairwise : ∀ e1 ∈ LINE_SPEC, ∀ e2 ∈ LINE_SPEC,
    (∀ k, k < e1.2.length → k < e2.2.length → charAt e1.2 k = charAt e2.2 k) → e1 = e2 := by
  decide

theorem sizeStep_split (s : Obj_MeshSizes) (l : Line) :
    sizeStep s l = ⟨s.nPos + (sizeDelta l).nPos, s.nNorms + (sizeDelta l).nNorms,
                    s.nTex + (sizeDelta l).nTex, s.nFaces + (sizeDelta l).nFaces,
                    s.flatFacesSize + (sizeDelta l).flatFacesSize⟩ := by
  simp only [sizeDelta, sizeStep]
  cases h : get_line_type l <;> simp

theorem foldl_sizeStep_shift (ls : List Line) : ∀ s : Obj_MeshSizes,
    ls.foldl sizeStep s =
      ⟨s.nPos + (get_sizes ls).nPos, s.nNorms + (get_sizes ls).nNorms,
       s.nTex + (get_sizes ls).nTex, s.nFaces + (get_sizes ls).nFaces,
       s.flatFacesSize + (get_sizes ls).flatFacesSize⟩ := by
  induction ls with
  | nil => intro s; simp [get_sizes]
  | cons l ls ih =>
    intro s
    have hcons : get_sizes (l :: ls) = (l :: ls).foldl sizeStep ⟨0, 0, 0, 0, 0⟩ := rfl
    rw [List.foldl_cons, ih (sizeStep s l), hcons, List.foldl_cons,
        ih (sizeStep ⟨0, 0, 0, 0, 0⟩ l), sizeStep_split s l,
        sizeStep_split ⟨0, 0, 0, 0, 0⟩ l]
    simp [Obj_MeshSizes.mk.injEq]
    omega

theorem get_sizes_cons (l : Line) (ls : List Line) :
    get_sizes (l :: ls) =
      ⟨(sizeDelta l).nPos + (get_sizes ls).nPos, (sizeDelta l).nNorms + (get_sizes ls).nNorms,
       (sizeDelta l).nTex + (get_sizes ls).nTex, (sizeDelta l).nFaces + (get_sizes ls).nFaces,
       (sizeDelta l).flatFacesSize + (get_sizes ls).flatFacesSize⟩ := by
  have : get_sizes (l :: ls) = ls.foldl sizeStep (sizeStep ⟨0, 0, 0, 0, 0⟩ l) := rfl
  rw [this, foldl_sizeStep_shift ls (sizeStep ⟨0, 0, 0, 0, 0⟩ l)]
  rfl

theorem get_sizes_append (p q : List Line) :
    get_sizes (p ++ q) =
      ⟨(get_sizes p).nPos + (get_sizes q).nPos, (get_sizes p).nNorms + (get_sizes q).nNorms,
       (get_sizes p).nTex + (get_sizes q).nTex, (get_sizes p).nFaces + (get_sizes q).nFaces,
       (get_sizes p).flatFacesSize + (get_sizes q).flatFacesSize⟩ := by
  have : get_sizes (p ++ q) = q.foldl sizeStep (p.foldl sizeStep ⟨0, 0, 0, 0, 0⟩) := by
    rw [get_sizes, List.foldl_append]
  rw [this, foldl_sizeStep_shift q (p.foldl sizeStep ⟨0, 0, 0, 0, 0⟩)]
  rfl

theorem pfLoop_some_tok_none (ft : Obj_FaceType) (hft : ft ≠ .invalid) (tk : List Char) :
    ∀ (fuel : Nat) (d : Obj_MeshData) (u : Bool) (fvi nv : Nat) (p t n : Int),
      pfLoop ft (some tk) fuel d u fvi nv p t n = none := by
  intro fuel
  induction fuel with
  | zero => intro d u fvi nv p t n; rfl
  | succ f ih =>
    intro d u fvi nv p t n
    cases ft with
    | invalid => exact absurd rfl hft
    | posOnly => simp only [pfLoop]; exact ih _ _ _ _ _ _ _
    | posAndTex => simp only [pfLoop]; exact ih _ _ _ _ _ _ _
    | posAndNorm => simp only [pfLoop]; exact ih _ _ _ _ _ _ _
    | posTexAndNorm => simp only [pfLoop]; exact ih _ _ _ _ _ _ _

theorem parse_face_nv_zero (l : Line) (d : Obj_MeshData) (u : Bool) (fvi fuel : Nat)
    (r : Obj_MeshData × Bool × Nat) (h : parse_face l d u fvi fuel = some r) : r.2.2 = 0 := by
  unfold parse_face at h
  cases hft : determine_face_type l fuel with
  | none => rw [hft] at h; cases h
  | some ft =>
    rw [hft] at h
    cases htk : strtokFirst (l.drop 2) with
    | none =>
      rw [htk] at h
      simp only [pfLoop] at h
      cases h
      rfl
    | some tk =>
      rw [htk] at h
      by_cases hinv : ft = .invalid
      · subst hinv
        cases fuel with
        | zero => cases h
        | succ f =>
          simp only [pfLoop] at h
          cases h
          rfl
      · change pfLoop ft (some tk) fuel d u fvi 0 (-1) (-1) (-1) = some r at h
        rw [pfLoop_some_tok_none ft hinv tk fuel d u fvi 0 (-1) (-1) (-1)] at h
        cases h

theorem dftLoop_stuck (l : Line) (i : Nat) (h1 : charAt l i ≠ ' ')
    (h2 : ((charAt l i).toNat : Int) - 48 < 10) :
    ∀ (fuel : Nat) (js s : Bool), dftLoop l fuel i js s = none := by
  intro fuel
  induction fuel with
  | zero => intro js s; rfl
  | succ f ih =>
    intro js s
    simp only [dftLoop]
    rw [if_neg h1, if_pos h2]
    exact ih false s

theorem decodeVecpos_cont (st st2 : DecodeSt) (l : Line) (h : decodeVecpos st l = .cont st2) :
    st2.posIdx = st.posIdx + 1 ∧ st2.normIdx = st.normIdx ∧ st2.textIdx = st.textIdx ∧
    st2.faceIdx = st.faceIdx ∧ st2.faceVtxIdx = st.faceVtxIdx := by
  unfold decodeVecpos at h
  dsimp only at h
  split at h
  · injection h with h2
    subst h2
    exact ⟨rfl, rfl, rfl, rfl, rfl⟩
  · split at h
    · injection h with h2
      subst h2
      exact ⟨rfl, rfl, rfl, rfl, rfl⟩
    · cases h

theorem decodeVecnorm_cont (st st2 : DecodeSt) (l : Line) (h : decodeVecnorm st l = .cont st2) :
    st2.posIdx = st.posIdx ∧ st2.normIdx = st.normIdx + 1 ∧ st2.textIdx = st.textIdx ∧
    st2.faceIdx = st.faceIdx ∧ st2.faceVtxIdx = st.faceVtxIdx := by
  unfold decodeVecnorm at h
  dsimp only at h
  split at h
  · injection h with h2
    subst h2
    exact ⟨rfl, rfl, rfl, rfl, rfl⟩
  · cases h

theorem decodeVectext_cont (st st2 : DecodeSt) (l : Line) (h : decodeVectext st l = .cont st2) :
    st2.posIdx = st.posIdx ∧ st2.normIdx = st.normIdx ∧ st2.textIdx = st.textIdx + 1 ∧
    st2.faceIdx = st.faceIdx ∧ st2.faceVtxIdx = st.faceVtxIdx := by
  unfold decodeVectext at h
  dsimp only at h
  split at h
  · injection h with h2
    subst h2
    exact ⟨rfl, rfl, rfl, rfl, rfl⟩
  · cases h

/-- Cursor movement of one decode-pass line, matched against the sizing
pass contribution of the same line: the four per-line counters move by
exactly the sizing increment, and the face-vertex cursor by at most the
sizing increment. -/
theorem decodeLine_cont (fuel : Nat) (st st2 : DecodeSt) (l : Line)
    (h : decodeLine fuel st l = some (.cont st2)) :
    st2.posIdx = st.posIdx + (sizeDelta l).nPos ∧
    st2.normIdx = st.normIdx + (sizeDelta l).nNorms ∧
    st2.textIdx = st.textIdx + (sizeDelta l).nTex ∧
    st2.faceIdx = st.faceIdx + (sizeDelta l).nFaces ∧
    st2.faceVtxIdx ≤ st.faceVtxIdx + (sizeDelta l).flatFacesSize := by
  unfold decodeLine at h
  cases hl : get_line_type l <;> rw [hl] at h <;>
    simp only [sizeDelta, sizeStep, hl]
  case comment | vecparam | lin | mtlspec | mtluse | object | group | sshading | invalid =>
    injection h with h2
    injection h2 with h3
    subst h3
    simp
  case vecpos =>
    obtain ⟨h1, h2, h3, h4, h5⟩ := decodeVecpos_cont st st2 l (Option.some.inj h)
    simp [h1, h2, h3, h4, h5]
  case vecnorm =>
    obtain ⟨h1, h2, h3, h4, h5⟩ := decodeVecnorm_cont st st2 l (Option.some.inj h)
    simp [h1, h2, h3, h4, h5]
  case vectext =>
    obtain ⟨h1, h2, h3, h4, h5⟩ := decodeVectext_cont st st2 l (Option.some.inj h)
    simp [h1, h2, h3, h4, h5]
  case face =>
    cases hp : parse_face l st.data st.ub st.faceVtxIdx fuel with
    | none => rw [hp] at h; cases h
    | some r =>
      rw [hp] at h
      have hz := parse_face_nv_zero l st.data st.ub st.faceVtxIdx fuel r hp
      obtain ⟨d2, u2, nv⟩ := r
      simp only at hz
      subst hz
      dsimp only at h
      injection h with h2
      injection h2 with h3
      subst h3
      simp

/-- Cursor totals over a successfully decoded list of lines. -/
theorem decodeLines_success (fuel : Nat) : ∀ (ls : List Line) (st st2 : DecodeSt),
    decodeLines fuel st ls = some (st2, true) →
    st2.posIdx = st.posIdx + (get_sizes ls).nPos ∧
    st2.normIdx = st.normIdx + (get_sizes ls).nNorms ∧
    st2.textIdx = st.textIdx + (get_sizes ls).nTex ∧
    st2.faceIdx = st.faceIdx + (get_sizes ls).nFaces ∧
    st2.faceVtxIdx ≤ st.faceVtxIdx + (get_sizes ls).flatFacesSize := by
  intro ls
  induction ls with
  | nil =>
    intro st st2 h
    injection h with h2
    injection h2 with h3 _
    subst h3
    simp [get_sizes]
  | cons l ls ih =>
    intro st st2 h
    unfold decodeLines at h
    cases hd : decodeLine fuel st l with
    | none => rw [hd] at h; cases h
    | some sr =>
      rw [hd] at h
      cases sr with
      | abort st1 => simp at h
      | cont st1 =>
        obtain ⟨c1, c2, c3, c4, c5⟩ := decodeLine_cont fuel st st1 l hd
        obtain ⟨r1, r2, r3, r4, r5⟩ := ih st1 st2 h
        rw [get_sizes_cons]
        refine ⟨?_, ?_, ?_, ?_, ?_⟩ <;> simp <;> omega

/-- A successful decode of `p ++ q` restricts to a successful decode of
the `p` part, continuing from its final state over `q`. -/
theorem decodeLines_append (fuel : Nat) : ∀ (p q : List Line) (st r : DecodeSt),
    decodeLines fuel st (p ++ q) = some (r, true) →
    ∃ sp, decodeLines fuel st p = some (sp, true) ∧ decodeLines fuel sp q = some (r, true) := by
  intro p
  induction p with
  | nil => intro q st r h; exact ⟨st, rfl, h⟩
  | cons l p ih =>
    intro q st r h
    rw [List.cons_append] at h
    unfold decodeLines at h
    cases hd : decodeLine fuel st l with
    | none => rw [hd] at h; cases h
    | some sr =>
      rw [hd] at h
      cases sr with
      | abort st1 => simp at h
      | cont st1 =>
        obtain ⟨sp, hp, hq⟩ := ih q st1 r h
        refine ⟨sp, ?_, hq⟩
        unfold decodeLines
        rw [hd]
        exact hp

theorem initSt_cursors (ok : Nat → Bool) (s : Obj_MeshSizes) :
    (initSt ok s).posIdx = 0 ∧ (initSt ok s).normIdx = 0 ∧ (initSt ok s).textIdx = 0 ∧
    (initSt ok s).faceVtxIdx = 0 ∧ (initSt ok s).faceIdx = 0 :=
  ⟨rfl, rfl, rfl, rfl, rfl⟩

/-- C1 (amended): on every parse whose decode pass completes successfully
the position, normal, texture-coordinate and face cursors equal the
sizing-pass counts exactly, the face-vertex cursor is at most
`flatFacesSize`, and after any prefix of the file every cursor is at most
its `Obj_MeshSizes` bound. -/
theorem C1_two_pass_consistency (ok : Nat → Bool) (fuel : Nat) (file : List Line) (st : DecodeSt)
    (h : try_get_data ok fuel file (get_sizes file) = some (st, true)) :
    (st.posIdx = (get_sizes file).nPos ∧
     st.normIdx = (get_sizes file).nNorms ∧
     st.textIdx = (get_sizes file).nTex ∧
     st.faceIdx = (get_sizes file).nFaces ∧
     st.faceVtxIdx ≤ (get_sizes file).flatFacesSize) ∧
    (∀ p q, file = p ++ q →
      ∃ sp, decodeLines fuel (initSt ok (get_sizes file)) p = some (sp, true) ∧
        sp.posIdx ≤ (get_sizes file).nPos ∧
        sp.normIdx ≤ (get_sizes file).nNorms ∧
        sp.textIdx ≤ (get_sizes file).nTex ∧
        sp.faceIdx ≤ (get_sizes file).nFaces ∧
        sp.faceVtxIdx ≤ (get_sizes file).flatFacesSize) := by
  obtain ⟨i1, i2, i3, i4, i5⟩ := initSt_cursors ok (get_sizes file)
  unfold try_get_data at h
  constructor
  · obtain ⟨r1, r2, r3, r4, r5⟩ := decodeLines_success fuel file _ st h
    rw [i1] at r1
    rw [i2] at r2
    rw [i3] at r3
    rw [i4] at r5
    rw [i5] at r4
    exact ⟨by omega, by omega, by omega, by omega, by omega⟩
  · intro p q hpq
    subst hpq
    obtain ⟨sp, hp, _⟩ := decodeLines_append fuel p q _ st h
    obtain ⟨p1, p2, p3, p4, p5⟩ := decodeLines_success fuel p _ sp hp
    rw [i1] at p1
    rw [i2] at p2
    rw [i3] at p3
    rw [i4] at p5
    rw [i5] at p4
    have hadd := get_sizes_append p q
    have e1 : (get_sizes (p ++ q)).nPos = (get_sizes p).nPos + (get_sizes q).nPos := by rw [hadd]
    have e2 : (get_sizes (p ++ q)).nNorms = (get_sizes p).nNorms + (get_sizes q).nNorms := by rw [hadd]
    have e3 : (get_sizes (p ++ q)).nTex = (get_sizes p).nTex + (get_sizes q).nTex := by rw [hadd]
    have e4 : (get_sizes (p ++ q)).nFaces = (get_sizes p).nFaces + (get_sizes q).nFaces := by rw [hadd]
    have e5 : (get_sizes (p ++ q)).flatFacesSize = (get_sizes p).flatFacesSize + (get_sizes q).flatFacesSize := by
      rw [hadd]
    exact ⟨sp, hp, by omega, by omega, by omega, by omega, by omega⟩

/-- C1 counterexample: the file whose single line is `f  ` (two spaces,
end of file) decodes successfully, yet the decode pass writes 0
face-vertices while the sizing pass computed `flatFacesSize = 2`: the
claimed count equality fails on a successfully parsed input. -/
theorem C1_counterexample :
    ((try_get_data (fun _ => true) 4 c1BadFile (get_sizes c1BadFile)).map
      (fun r => (r.1.faceVtxIdx, r.2))) = some (0, true) ∧
    (get_sizes c1BadFile).flatFacesSize = 2 := by
  constructor
  · rfl
  · rfl

/-- C1 witness: the amended theorem applied to a one-line file. -/
theorem C1_witness :
    (c1WitSt.posIdx = (get_sizes c1File).nPos ∧
     c1WitSt.normIdx = (get_sizes c1File).nNorms ∧
     c1WitSt.textIdx = (get_sizes c1File).nTex ∧
     c1WitSt.faceIdx = (get_sizes c1File).nFaces ∧
     c1WitSt.faceVtxIdx ≤ (get_sizes c1File).flatFacesSize) ∧
    (∀ p q, c1File = p ++ q →
      ∃ sp, decodeLines 4 (initSt (fun _ => true) (get_sizes c1File)) p = some (sp, true) ∧
        sp.posIdx ≤ (get_sizes c1File).nPos ∧
        sp.normIdx ≤ (get_sizes c1File).nNorms ∧
        sp.textIdx ≤ (get_sizes c1File).nTex ∧
        sp.faceIdx ≤ (get_sizes c1File).nFaces ∧
        sp.faceVtxIdx ≤ (get_sizes c1File).flatFacesSize) :=
  C1_two_pass_consistency (fun _ => true) 4 c1File c1WitSt (by decide)

/-- C2 (refuted, code bug): a 3-field position line stores `w = 1.0` as
claimed, but on the 4-field line `v 1.0 2.0 3.0 0.5` the decode pass
also stores `w = 1.0`: the first `sscanf("v %f %f %f")` succeeds with 3
conversions, its nonzero return takes the 3-float branch and the
supplied fourth field `0.5` is silently dropped. -/
theorem C2_fourth_coordinate_dropped :
    ((try_get_data (fun _ => true) 4 c2File3 (get_sizes c2File3)).map
      (fun r => (r.1.data.posX, r.1.data.posW, r.2))) =
      some (some [some 1], some [some 1], true) ∧
    ((try_get_data (fun _ => true) 4 c2File4 (get_sizes c2File4)).map
      (fun r => (r.1.data.posW, r.2))) = some (some [some 1], true) ∧
    (sscanf_floats "v ".toList 4 "v 1.0 2.0 3.0 0.5\n".toList).2.get? 3 = some (mkRat 1 2) ∧
    (1 : ℚ) ≠ mkRat 1 2 :=
  ⟨by decide, by decide, by decide, by decide⟩

/-- C3 (refuted, code bug): the malformed line `vn 1.0 abc` does NOT
abort the decode pass: `sscanf("vn %f %f %f")` converts one field and
returns 1, which the code treats as success, so the cursor advances past
a half-written normal and the parse ends with success = true. Only a
line whose first field fails to convert (return 0), such as `vn abc`,
aborts with success = false. -/
theorem C3_partial_normal_line_not_aborted :
    ((try_get_data (fun _ => true) 4 c3File (get_sizes c3File)).map
      (fun r => (r.1.data.normX, r.1.data.normY, r.1.normIdx, r.2))) =
      some (some [some 1], some [none], 1, true) ∧
    (sscanf_floats "vn ".toList 3 "vn 1.0 abc\n".toList).1 = 1 ∧
    ((try_get_data (fun _ => true) 4 c3AbortFile (get_sizes c3AbortFile)).map
      (fun r => (r.1.normIdx, r.2))) = some (0, false) :=
  ⟨by decide, by decide, by decide⟩

/-- C4 (refuted, code bug): when the first position-buffer allocation
fails, `alloc_mesh_data` reports the failure (returns false with a NULL
`posX`), but `try_get_data` discards that result: the decode pass runs
anyway, attempts a store through the unallocated buffer (undefined
behaviour, `ub = true`) and the parse even reports success. -/
theorem C4_alloc_failure_not_propagated :
    (alloc_mesh_data c4Oracle (get_sizes c4File)).2 = false ∧
    (alloc_mesh_data c4Oracle (get_sizes c4File)).1.posX = none ∧
    ((try_get_data c4Oracle 4 c4File (get_sizes c4File)).map
      (fun r => (r.1.ub, r.2))) = some (true, true) :=
  ⟨by decide, by decide, by decide⟩

/-- C5 (refuted, code bug): face parsing does not terminate. On the face
line `f 1 2 3` the probe `determine_face_type` reads the digit `1`,
whose branch `continue`s without advancing the index, so the scan never
exits (result `none` for every fuel); and even with a terminating probe
the `while (intBuff)` loop of `parse_face` never calls `strtok` again,
so with any first token present it also runs forever. -/
theorem C5_face_parsing_loops_forever :
    (∀ (fuel : Nat) (d : Obj_MeshData) (u : Bool) (fvi : Nat),
       parse_face "f 1 2 3\n".toList d u fvi fuel = none) ∧
    (∀ (fuel : Nat) (d : Obj_MeshData) (u : Bool) (fvi nv : Nat) (p t n : Int),
       pfLoop .posOnly (some "xyz".toList) fuel d u fvi nv p t n = none) := by
  constructor
  · intro fuel d u fvi
    unfold parse_face
    rw [show determine_face_type "f 1 2 3\n".toList fuel = none from
          dftLoop_stuck _ 2 (by decide) (by decide) fuel false false]
  · intro fuel d u fvi nv p t n
    exact pfLoop_some_tok_none .posOnly (by decide) "xyz".toList fuel d u fvi nv p t n

/-- C6 (refuted, code bug): the face-vertex format is never determined.
On the first token `1/2/3` of the claimed example the probe hangs on the
digit `1` (the `c - '0' < 10` branch `continue`s without `++i`), so no
slash is ever counted and no format is returned, for any fuel. -/
theorem C6_face_type_probe_never_classifies :
    ∀ fuel : Nat, determine_face_type "f 1/2/3 4/5/6 7/8/9".toList fuel = none := by
  intro fuel
  exact dftLoop_stuck _ 2 (by decide) (by decide) fuel false false

/-- C7 (refuted, code bug): on the face line `f 1  2 3` (double space)
the sizing pass adds 4 to `totalFaceVertexCount` — it counts raw `' '`
characters over the whole line — while the whitespace-delimited token
count after the `f ` prefix is 3. -/
theorem C7_sizing_counts_spaces_not_tokens :
    (get_sizes [c7Line]).flatFacesSize = 4 ∧ specFaceTokenCount c7Line = 3 :=
  ⟨by decide, by decide⟩

/-- C8 counterexample: on a mesh with one allocated buffer (address 1)
the second of two successive `obj_free` calls frees that buffer again —
`FREE` never NULLs the pointer field, so the claimed idempotence fails
and address 1 is passed to `free` twice. -/
theorem C8_counterexample :
    (obj_free ((obj_free c8Mesh).1)).2 = [1] ∧ (obj_free c8Mesh).2 = [1] :=
  ⟨by decide, by decide⟩

/-- C8 (amended): `obj_free` never modifies the mesh struct, so a second
call repeats exactly the frees of the first — it is a no-op the second
time only when the mesh holds no non-null buffer; on an unpopulated
(all-NULL) mesh `obj_free` is safe and frees nothing. -/
theorem C8_release_behaviour :
    (∀ m : Obj_MeshPtrs, (obj_free m).1 = m) ∧
    (∀ m : Obj_MeshPtrs, (obj_free ((obj_free m).1)).2 = (obj_free m).2) ∧
    (obj_free ⟨0, 0, 0, 0, 0, 0, 0, 0, 0, 0, 0⟩).2 = [] :=
  ⟨fun _ => rfl, fun _ => rfl, by decide⟩

theorem strlen_s_go_false : ∀ (r i : Nat), strlen_s_go false i r = MAX_LEN := by
  intro r
  induction r with
  | zero => intro i; rfl
  | succ r ih => intro i; simpa [strlen_s_go] using ih (i + 1)

theorem strlen_s_some (l : List Char) : strlen_s (some l) = MAX_LEN := by
  simp [strlen_s, strlen_s_go_false]

theorem strlen_s_none : strlen_s none = 0 := by
  simp [strlen_s, strlen_s_go, MAX_LEN]

theorem str_endswith_some (a b : List Char) :
    str_endswith (some a) (some b) = (cstrncmp a b MAX_LEN == 0) := by
  simp [str_endswith, strlen_s_some]

/-- C9 (refuted, code bug): `strlen_s` tests the pointer (`!s`) instead
of the character under it, returning `MAX_LEN` for every non-null
string; `str_endswith` therefore compares from offset 0 and degenerates
to full string equality. The path `model.obj`, which ends with `.obj`,
is rejected, and the parse returns failure with the empty mesh. The
claimed propagation half does hold: an extension or open failure yields
`(false, empty mesh)` before any sizing or allocation. -/
theorem C9_extension_check_degenerates :
    str_endswith (some "model.obj".toList) (some ".obj".toList) = false ∧
    str_endswith (some "model.obj".toList) (some ".OBJ".toList) = false ∧
    (".obj".toList <:+ "model.obj".toList) ∧
    str_endswith (some ".obj".toList) (some ".obj".toList) = true ∧
    obj_read (fun _ => true) 4 (some "model.obj".toList) true ["v 1 2 3\n".toList] =
      some (false, mesh0) ∧
    obj_read (fun _ => true) 4 (some ".obj".toList) false ["v 1 2 3\n".toList] =
      some (false, mesh0) := by
  have h1 : str_endswith (some "model.obj".toList) (some ".obj".toList) = false := by
    rw [str_endswith_some]
    decide
  have h2 : str_endswith (some "model.obj".toList) (some ".OBJ".toList) = false := by
    rw [str_endswith_some]
    decide
  have h4 : str_endswith (some ".obj".toList) (some ".obj".toList) = true := by
    rw [str_endswith_some]
    decide
  have hto : try_open_obj (some "model.obj".toList) true = false := by
    unfold try_open_obj
    rw [str_endswith_some, str_endswith_some]
    decide
  have hto2 : try_open_obj (some ".obj".toList) false = false := by
    unfold try_open_obj
    rw [str_endswith_some, str_endswith_some]
    decide
  refine ⟨h1, h2, ⟨"model".toList, by decide⟩, h4, ?_, ?_⟩
  · unfold obj_read
    rw [hto]
    rfl
  · unfold obj_read
    rw [hto2]
    rfl

/-- C10 (confirmed): at most one entry of `LINE_SPEC` matches any given
line — the twelve prefixes are pairwise non-overlapping because each
carries its trailing space — so the first-match classification of
`get_line_type` does not depend on table order; in particular a `vt `
line classifies as `OBJ_VECTEXT` and a `vn ` line as `OBJ_VECNORM`,
never as `OBJ_VECPOS` although `v ` precedes them in the table. -/
theorem C10_line_prefixes_nonoverlapping :
    (∀ (l : List Char), ∀ e1 ∈ LINE_SPEC, ∀ e2 ∈ LINE_SPEC,
       lineMatches l e1.2 = true → lineMatches l e2.2 = true → e1 = e2)
    ∧ (∀ rest : List Char, get_line_type ('v' :: 't' :: ' ' :: rest) = .vectext)
    ∧ (∀ rest : List Char, get_line_type ('v' :: 'n' :: ' ' :: rest) = .vecnorm) := by
  refine ⟨?_, ?_, ?_⟩
  · intro l e1 h1 e2 h2 m1 m2
    have hn1 := spec_no_null e1 h1
    have hn2 := spec_no_null e2 h2
    have c1 := (cstrncmp_zero_iff e1.2 l hn1).1 (by simpa [lineMatches, beq_iff_eq] using m1)
    have c2 := (cstrncmp_zero_iff e2.2 l hn2).1 (by simpa [lineMatches, beq_iff_eq] using m2)
    exact spec_pairwise e1 h1 e2 h2 (fun k hk1 hk2 => by rw [← c1 k hk1, ← c2 k hk2])
  · intro rest
    rfl
  · intro rest
    rfl

/-- C10 witness: the non-overlap theorem applied at the concrete line
`vt 0 0` and the two table entries that could plausibly clash. -/
theorem C10_witness :
    ((Obj_LineType.vectext, "vt ".toList) : Obj_LineType × List Char) =
      (Obj_LineType.vectext, "vt ".toList) :=
  C10_line_prefixes_nonoverlapping.1 "vt 0 0\n".toList
    (Obj_LineType.vectext, "vt ".toList) (by decide)
    (Obj_LineType.vectext, "vt ".toList) (by decide)
    (by decide) (by decide)

end ObjReader
